import Mathlib

/-!
Verification of the merchant risk screening and fraud-scoring engine.

Shallow embedding of the engine functions of this repository:
  * `screen_merchants` / `fuzzy_match`          (api/screening.py)
  * `add_flags`                                 (merchsentai_app_final.py)
  * `detect_chargeback_fraud`                   (merchsentai_app_updated.py,
                                                 deepseek_python_20250625_7c2111.py)
  * `analyze_fraud`                             (api/analysis.py)

Numeric columns are modelled as rationals; pandas/numpy float results that can
be non-finite (division by zero) are modelled by `PFloat`, which carries the
IEEE special values NaN and plus or minus infinity explicitly.
-/

set_option maxRecDepth 1000000

namespace MVP

/-!
Exact rational arithmetic in a kernel-reducible form.  The library operations
on `ℚ` are deliberately irreducible, so the embedding computes with
`Rat.divInt` over integer numerators and denominators; the bridge lemmas
`qadd_eq`, `qsub_eq`, `qmul_eq`, `qdiv_eq`, `qmax_eq` identify these
operations with the ordinary field operations of `ℚ`.
-/

/-- Exact rational addition (`qadd_eq : qadd a b = a + b`). -/
def qadd (a b : ℚ) : ℚ :=
  Rat.divInt (a.num * b.den + b.num * a.den) ((a.den : ℤ) * (b.den : ℤ))

/-- Exact rational subtraction (`qsub_eq : qsub a b = a - b`). -/
def qsub (a b : ℚ) : ℚ :=
  Rat.divInt (a.num * b.den - b.num * a.den) ((a.den : ℤ) * (b.den : ℤ))

/-- Exact rational multiplication (`qmul_eq : qmul a b = a * b`). -/
def qmul (a b : ℚ) : ℚ :=
  Rat.divInt (a.num * b.num) ((a.den : ℤ) * (b.den : ℤ))

/-- Exact rational division (`qdiv_eq : qdiv a b = a / b`; division by zero
gives 0, but every use below guards the denominator). -/
def qdiv (a b : ℚ) : ℚ :=
  Rat.divInt (a.num * b.den) (b.num * (a.den : ℤ))

/-- Maximum of two rationals (`qmax_eq : qmax a b = max a b`). -/
def qmax (a b : ℚ) : ℚ := if a ≤ b then b else a

theorem qadd_eq (a b : ℚ) : qadd a b = a + b := by
  conv_rhs => rw [← Rat.num_div_den a, ← Rat.num_div_den b]
  rw [qadd, Rat.divInt_eq_div]
  push_cast
  have ha : ((a.den : ℚ)) ≠ 0 := by positivity
  have hb : ((b.den : ℚ)) ≠ 0 := by positivity
  field_simp

theorem qsub_eq (a b : ℚ) : qsub a b = a - b := by
  conv_rhs => rw [← Rat.num_div_den a, ← Rat.num_div_den b]
  rw [qsub, Rat.divInt_eq_div]
  push_cast
  have ha : ((a.den : ℚ)) ≠ 0 := by positivity
  have hb : ((b.den : ℚ)) ≠ 0 := by positivity
  field_simp
  ring

theorem qmul_eq (a b : ℚ) : qmul a b = a * b := by
  conv_rhs => rw [← Rat.num_div_den a, ← Rat.num_div_den b]
  rw [qmul, Rat.divInt_eq_div]
  push_cast
  have ha : ((a.den : ℚ)) ≠ 0 := by positivity
  have hb : ((b.den : ℚ)) ≠ 0 := by positivity
  field_simp

theorem qdiv_eq (a b : ℚ) : qdiv a b = a / b := by
  rcases eq_or_ne b 0 with hb | hb
  · subst hb; simp [qdiv]
  · conv_rhs => rw [← Rat.num_div_den a, ← Rat.num_div_den b]
    rw [qdiv, Rat.divInt_eq_div]
    push_cast
    have ha : ((a.den : ℚ)) ≠ 0 := by positivity
    have hbd : ((b.den : ℚ)) ≠ 0 := by positivity
    have hbn : ((b.num : ℚ)) ≠ 0 := by exact_mod_cast Rat.num_ne_zero.mpr hb
    field_simp
    left
    ring

theorem qmax_eq (a b : ℚ) : qmax a b = max a b := by
  rw [qmax, max_def]

/-- Model of a pandas/numpy float value: a finite rational, an infinity, or NaN.
Finite values are exact rationals (float rounding is not modelled; every
quantity in the claims is exactly representable). -/
inductive PFloat where
  | fin (q : ℚ)
  | posInf
  | negInf
  | nan
deriving DecidableEq

/-- True exactly on finite values. -/
def PFloat.isFinite : PFloat → Bool
  | .fin _ => true
  | _ => false

/-- True exactly on NaN. -/
def PFloat.isNan : PFloat → Bool
  | .nan => true
  | _ => false

/-- The rational carried by a finite value (junk value 0 otherwise). -/
def PFloat.toQ : PFloat → ℚ
  | .fin q => q
  | _ => 0

/-- Float division with numpy semantics: `a / 0` is `+inf`, `-inf` or NaN
according to the sign of `a`; NaN propagates; `inf / inf` is NaN;
a finite value divided by an infinity is 0 (signed zero is not modelled). -/
def pdiv : PFloat → PFloat → PFloat
  | .nan, _ => .nan
  | _, .nan => .nan
  | .fin a, .fin b =>
      if b ≠ 0 then .fin (qdiv a b)
      else if 0 < a then .posInf
      else if a < 0 then .negInf
      else .nan
  | .posInf, .posInf => .nan
  | .posInf, .negInf => .nan
  | .negInf, .posInf => .nan
  | .negInf, .negInf => .nan
  | .posInf, .fin b => if b < 0 then .negInf else .posInf
  | .negInf, .fin b => if b < 0 then .posInf else .negInf
  | .fin _, .posInf => .fin 0
  | .fin _, .negInf => .fin 0

/-- Float subtraction with numpy semantics: NaN propagates, `inf - inf` is NaN. -/
def psub : PFloat → PFloat → PFloat
  | .nan, _ => .nan
  | _, .nan => .nan
  | .fin a, .fin b => .fin (qsub a b)
  | .posInf, .posInf => .nan
  | .posInf, _ => .posInf
  | .negInf, .negInf => .nan
  | .negInf, _ => .negInf
  | .fin _, .posInf => .negInf
  | .fin _, .negInf => .posInf

/-- Float comparison `x > c` against a finite constant: comparisons with NaN
are false, `+inf > c` is true, `-inf > c` is false (numpy semantics). -/
def pgtQ : PFloat → ℚ → Bool
  | .fin a, c => decide (c < a)
  | .posInf, _ => true
  | .negInf, _ => false
  | .nan, _ => false

/-- Mean of a pandas Series (`Series.mean()`): NaN entries are skipped; the
mean of an empty (or all-NaN) series is NaN; with a `+inf` entry (and no
`-inf`) the mean is `+inf`, with both it is NaN. -/
def pmean (xs : List PFloat) : PFloat :=
  let ys := xs.filter (fun x => !x.isNan)
  if ys.isEmpty then .nan
  else if ys.all (fun x => x.isFinite) then
    .fin (qdiv ((ys.map PFloat.toQ).foldl qadd 0) ((ys.length : ℕ) : ℚ))
  else if (ys.contains .posInf) && (ys.contains .negInf) then .nan
  else if ys.contains .posInf then .posInf
  else .negInf

/-- Population variance of a pandas Series (square of `Series.std(ddof=0)`):
NaN entries are skipped; an empty (or all-NaN) series and any series
containing an infinity give NaN (`inf - inf` arises inside the computation). -/
def pvar (xs : List PFloat) : PFloat :=
  let ys := xs.filter (fun x => !x.isNan)
  if ys.isEmpty then .nan
  else if ys.all (fun x => x.isFinite) then
    let qs := ys.map PFloat.toQ
    let m := qdiv (qs.foldl qadd 0) ((qs.length : ℕ) : ℚ)
    .fin (qdiv ((qs.map (fun a => qmul (qsub a m) (qsub a m))).foldl qadd 0) ((qs.length : ℕ) : ℚ))
  else .nan

/-- Exact representation of a z-score `diff / sqrt(var)` as computed by the
source (`(rate - mean) / std` with `std = Series.std(ddof=0)`).  Because the
standard deviation `sqrt(v)` of a batch with positive variance is irrational
in general, the value is kept symbolically: `val d v` denotes the real number
`d / sqrt(v)` with `v > 0`; the degenerate float cases (division by a zero
standard deviation, NaN and infinite operands) are evaluated to the explicit
IEEE results. -/
inductive ZVal where
  | nan
  | posInf
  | negInf
  | val (d v : ℚ)
deriving DecidableEq

/-- The z-score `diff / sqrt(var)` in float semantics.  For `var = 0` the
source divides by the float `0.0`: `0/0` is NaN and `d/0` is a signed
infinity.  For finite `var > 0` the value is the symbolic `val d var`.
A non-finite or negative variance makes the standard deviation NaN or the
quotient degenerate exactly as numpy computes it. -/
def zScore (diff : PFloat) (var : PFloat) : ZVal :=
  match var with
  | .fin v =>
      if v < 0 then .nan
      else if v = 0 then
        match diff with
        | .fin d => if d = 0 then .nan else if 0 < d then .posInf else .negInf
        | .posInf => .posInf
        | .negInf => .negInf
        | .nan => .nan
      else
        match diff with
        | .fin d => .val d v
        | .posInf => .posInf
        | .negInf => .negInf
        | .nan => .nan
  | .posInf =>
      match diff with
      | .fin _ => .val 0 1
      | _ => .nan
  | .negInf => .nan
  | .nan => .nan

/-- The outlier test `abs(z) > 2` of the source.  For the symbolic value
`d / sqrt(v)` (with `v > 0`) the test `abs(d/sqrt(v)) > 2` is equivalent to
`d^2 > 4*v`; comparisons with NaN are false; infinities pass. -/
def zAbsGtTwo : ZVal → Bool
  | .nan => false
  | .posInf => true
  | .negInf => true
  | .val d v => decide (qmul 4 v < qmul d d)

/-- True when the z-score value represents the real number 0
(the symbolic `val d v` denotes `d / sqrt(v)`, which is 0 iff `d = 0`). -/
def ZVal.reprZero : ZVal → Bool
  | .val d _ => decide (d = 0)
  | _ => false

/-!
Chargeback fraud detection, from `detect_chargeback_fraud` of
`merchsentai_app_updated.py` (an identical copy, up to the flag columns being
stored, is at `deepseek_python_20250625_7c2111.py` lines 242-259).

A dataframe row is a `CbRecord`: the six uploaded numeric columns plus the
columns that `detect_chargeback_fraud` writes into the caller's dataframe
(absent before the call, hence `Option` with default `none`).
-/

/-- One row of the merchant summary dataframe.  The first six fields are the
uploaded input columns; the remaining fields are the derived columns that
`detect_chargeback_fraud` assigns in place (`df['ChargebackRate'] = ...` etc.),
`none` while the column is absent. -/
structure CbRecord where
  numTransactions : ℚ
  numChargebacks : ℚ
  chargebacksThisMonth : ℚ
  chargebacksLastMonth : ℚ
  chargebackAmount : ℚ
  totalTransactionVolume : ℚ
  chargebackRate : Option PFloat := none
  disputeDelta : Option ℚ := none
  chargebackVolRatioCol : Option PFloat := none
  chargebackRateZ : Option ZVal := none
  highChargebackRateFlag : Option Bool := none
  chargebackSpikeFlag : Option Bool := none
  highChargebackVolFlag : Option Bool := none
  chargebackOutlierZFlag : Option Bool := none
deriving DecidableEq

/-- The rate computation `df['NumChargebacks'] / df['NumTransactions']`:
plain float division, with no guard for a zero transaction count. -/
def chargebackRateFn (r : CbRecord) : PFloat :=
  pdiv (.fin r.numChargebacks) (.fin r.numTransactions)

/-- The ratio computation `df['ChargebackAmount'] / df['TotalTransactionVolume']`. -/
def chargebackVolRatioFn (r : CbRecord) : PFloat :=
  pdiv (.fin r.chargebackAmount) (.fin r.totalTransactionVolume)

/-- Embedding of `detect_chargeback_fraud(df)`: computes the rate, dispute
delta and volume-ratio columns, the population mean and std (`ddof=0`) of the
rate column, the z-score column and the four flag columns, writes all of them
into the caller's dataframe, and returns the OR of the four flags.  The first
component is the dataframe after the call (the function mutates `df` in
place), the second the returned boolean Series. -/
def detectChargebackFraud (df : List CbRecord) : List CbRecord × List Bool :=
  let rates := df.map chargebackRateFn
  let m := pmean rates
  let v := pvar rates
  let post := df.map (fun r =>
    let rate := chargebackRateFn r
    let dd := qsub r.chargebacksThisMonth r.chargebacksLastMonth
    let vr := chargebackVolRatioFn r
    let z := zScore (psub rate m) v
    { r with
      chargebackRate := some rate
      disputeDelta := some dd
      chargebackVolRatioCol := some vr
      chargebackRateZ := some z
      highChargebackRateFlag := some (pgtQ rate (Rat.divInt 5 100))
      chargebackSpikeFlag := some (decide (dd > 10))
      highChargebackVolFlag := some (pgtQ vr (Rat.divInt 10 100))
      chargebackOutlierZFlag := some (zAbsGtTwo z) })
  (post,
   post.map (fun r =>
     r.highChargebackRateFlag.getD false || r.chargebackSpikeFlag.getD false ||
     r.highChargebackVolFlag.getD false || r.chargebackOutlierZFlag.getD false))

/-- `detect_chargeback_fraud` as a state transformer on the caller's
dataframe: first component the caller's dataframe after the call, second the
returned flag Series. -/
def detectChargebackFraudOp (df : List CbRecord) : List CbRecord × List Bool :=
  detectChargebackFraud df

/-!
Watchlist screening, from `api/screening.py`.

The fuzzy scorer is rapidfuzz's `fuzz.token_sort_ratio` (no processor, so no
lowercasing): both strings are split on whitespace, the tokens sorted by code
point and joined with single spaces, and the normalized indel similarity
`200 * lcs(a, b) / (|a| + |b|)` of the results is taken (the indel distance is
`|a| + |b| - 2 * lcs(a, b)`); the similarity of two empty strings is 100.
-/

/-- The configured lists of `api/screening.py` (module constants). -/
def SANCTION_LIST : List String :=
  ["Walmart", "Best Buy", "Target", "Amazon", "Shopify", "eBay", "Costco",
   "Evil Corp", "Fraudulent Co", "Scammy Store", "Sanctioned Entity",
   "Money Laundering Services"]

/-- High-risk merchant categories of `api/screening.py`. -/
def HIGH_RISK_CATEGORIES : List String :=
  ["Cryptocurrency", "Gambling", "Adult Entertainment", "Firearms",
   "Explosives", "Unlicensed Pharma", "Luxury Goods", "Pawn Shop"]

/-- High-risk countries of `api/screening.py`. -/
def HIGH_RISK_COUNTRIES : List String :=
  ["North Korea", "Iran", "Syria", "Russia", "Venezuela", "Myanmar"]

/-- Adverse-media keywords of `api/screening.py`. -/
def ADVERSE_KEYWORDS : List String :=
  ["fraud", "scam", "money laundering", "illegal", "bribery", "corruption",
   "smuggling", "black market", "embezzlement", "pyramid", "lawsuit", "arrest"]

/-- One dynamic-programming row step of the longest-common-subsequence length:
given the previous row (entries for prefix lengths `j, j+1, ...` of `bs`,
starting at the diagonal cell), the already-computed cell to the left, and the
current character `a`, produce the entries `j+1, ...` of the new row. -/
def lcsRowAux (a : Char) : Nat → List Char → List Nat → List Nat
  | left, b :: bs, diag :: rest =>
      let cur := if a = b then diag + 1 else max (rest.headD 0) left
      cur :: lcsRowAux a cur bs rest
  | _, _, _ => []

/-- Length of the longest common subsequence of two character lists, by the
standard row-by-row dynamic program. -/
def lcsLen (as bs : List Char) : Nat :=
  (as.foldl (fun row a => 0 :: lcsRowAux a 0 bs row)
            (List.replicate (bs.length + 1) 0)).getLastD 0

/-- Code-point comparison of strings (Python's `<=` on `str`, used by
`list.sort` inside `token_sort_ratio`). -/
def charListLe : List Char → List Char → Bool
  | [], _ => true
  | _ :: _, [] => false
  | a :: as, b :: bs =>
      if a.val < b.val then true
      else if b.val < a.val then false
      else charListLe as bs

/-- Stable insertion into a sorted list under `charListLe`. -/
def insertSorted (x : String) : List String → List String
  | [] => [x]
  | y :: ys => if charListLe x.data y.data then x :: y :: ys else y :: insertSorted x ys

/-- Sort a token list by code point (Python `sorted`). -/
def pySort (ts : List String) : List String := ts.foldr insertSorted []

/-- Helper for `pySplit`: accumulate the current token (reversed) while
scanning the character list. -/
def pySplitAux (cur : List Char) : List Char → List String
  | [] => if cur.isEmpty then [] else [String.mk cur.reverse]
  | c :: cs =>
      if c.isWhitespace then
        (if cur.isEmpty then [] else [String.mk cur.reverse]) ++ pySplitAux [] cs
      else pySplitAux (c :: cur) cs

/-- Python `str.split()` with no argument: split on runs of whitespace,
discarding empty pieces. -/
def pySplit (s : String) : List String := pySplitAux [] s.data

/-- The token-sort preprocessing of `fuzz.token_sort_ratio`: split into
tokens, sort them, join with single spaces. -/
def tokenSortProcess (s : String) : String :=
  String.intercalate " " (pySort (pySplit s))

/-- rapidfuzz `fuzz.token_sort_ratio(a, b)` as an exact rational in `[0,100]`:
the normalized indel similarity `200 * lcs / (|a'| + |b'|)` of the token-sorted
strings, and 100 when both are empty. -/
def tokenSortRatioQ (a b : String) : ℚ :=
  let x := (tokenSortProcess a).data
  let y := (tokenSortProcess b).data
  if x.length + y.length = 0 then 100
  else Rat.divInt (200 * (lcsLen x y : ℤ)) ((x.length : ℤ) + (y.length : ℤ))

/-- Embedding of `fuzzy_match(name, name_list, threshold=80)`:
`process.extract(..., limit=1)` returns the best-scoring entry (empty list for
an empty watchlist, in which case the function returns `False`), and the
result is `best_score >= threshold`. -/
def fuzzyMatch (name : String) (nameList : List String) (threshold : ℚ) : Bool :=
  match nameList with
  | [] => false
  | x :: xs =>
      decide (threshold ≤
        xs.foldl (fun acc y => qmax acc (tokenSortRatioQ name y)) (tokenSortRatioQ name x))

/-- One row of the merchant dataframe seen by `screen_merchants`: the four
columns it reads (with the source's defaults for absent values already
applied: `row.get("merchant_name", "")` etc.) and the `screening_flag` column
it writes, `none` while absent. -/
structure ScreenRow where
  merchantName : String
  merchantCategory : String
  merchantCountry : String
  merchantWebsite : String
  screeningFlag : Option String := none
deriving DecidableEq

/-- The exact-match branch `name in SANCTION_LIST` (case-sensitive Python
string membership). -/
def exactSanction (r : ScreenRow) : Bool := SANCTION_LIST.contains r.merchantName

/-- The fuzzy branch `fuzzy_match(name, SANCTION_LIST)`, with the threshold a
parameter of the model. -/
def fuzzySanctionT (threshold : ℚ) (r : ScreenRow) : Bool :=
  fuzzyMatch r.merchantName SANCTION_LIST threshold

/-- The fuzzy branch at the default threshold 80, as `screen_merchants`
calls it. -/
def fuzzySanction (r : ScreenRow) : Bool := fuzzySanctionT 80 r

/-- The category rule `category in HIGH_RISK_CATEGORIES`. -/
def catRisk (r : ScreenRow) : Bool := HIGH_RISK_CATEGORIES.contains r.merchantCategory

/-- The country rule `country in HIGH_RISK_COUNTRIES`. -/
def countryRisk (r : ScreenRow) : Bool := HIGH_RISK_COUNTRIES.contains r.merchantCountry

/-- Helper for the substring test: does `pat` occur as a prefix of some
suffix of `s`. -/
def strContainsAux (pat : List Char) : List Char → Bool
  | [] => pat.isPrefixOf []
  | c :: cs => pat.isPrefixOf (c :: cs) || strContainsAux pat cs

/-- Substring test `pat in s` (Python `in` on strings). -/
def strContainsSub (s pat : String) : Bool := strContainsAux pat.data s.data

/-- Python `str.lower()` (ASCII case folding suffices for the configured
keyword lists). -/
def strToLower (s : String) : String := String.mk (s.data.map Char.toLower)

/-- The adverse-keyword rule `any(keyword in website for keyword in
ADVERSE_KEYWORDS)`, on the lowercased website. -/
def advKeywords (r : ScreenRow) : Bool :=
  ADVERSE_KEYWORDS.any (fun k => strContainsSub (strToLower r.merchantWebsite) k)

/-- The reason list accumulated for one row by `screen_merchants`, with the
fuzzy threshold a parameter: exact sanction match, else fuzzy sanction match
(`elif`), then category, country and adverse-keyword reasons in order. -/
def screenRowReasonsT (threshold : ℚ) (r : ScreenRow) : List String :=
  (if exactSanction r then ["Exact match: sanction list"]
   else if fuzzySanctionT threshold r then ["Fuzzy match: sanction list"]
   else [])
  ++ (if catRisk r then ["High risk category: " ++ r.merchantCategory] else [])
  ++ (if countryRisk r then ["High risk country: " ++ r.merchantCountry] else [])
  ++ (if advKeywords r then ["Adverse media keywords in website"] else [])

/-- The reason list as `screen_merchants` computes it (default threshold 80). -/
def screenRowReasons (r : ScreenRow) : List String := screenRowReasonsT 80 r

/-- The `screening_flag` value written for one row:
`"; ".join(reasons) if reasons else "Clear"`. -/
def screenRowFlag (r : ScreenRow) : String :=
  let rs := screenRowReasons r
  if rs.isEmpty then "Clear" else String.intercalate "; " rs

/-- Any of the five screening conditions holds for the row. -/
def screenRuleMatched (r : ScreenRow) : Bool :=
  exactSanction r || fuzzySanction r || catRisk r || countryRisk r || advKeywords r

/-- Embedding of `screen_merchants(df)`: writes the `screening_flag` column
into the dataframe (via `df.at[...]`) and returns that same dataframe. -/
def screenMerchants (df : List ScreenRow) : List ScreenRow :=
  df.map (fun r => { r with screeningFlag := some (screenRowFlag r) })

/-- `screen_merchants` as a state transformer on the caller's dataframe:
the function mutates `df` in place and returns it, so the caller's dataframe
after the call and the returned value are the same mutated object. -/
def screenMerchantsOp (df : List ScreenRow) : List ScreenRow × List ScreenRow :=
  let out := screenMerchants df
  (out, out)

/-!
Rule evaluation and fraud scoring, from `add_flags` of
`merchsentai_app_final.py`.

Dates are modelled post-parse: `pd.to_datetime(..., errors='coerce')` turns a
parseable registration date into a day number and an unparseable or missing
one into `NaT`, modelled as `Option Int` (`none` for `NaT`).
`pd.Timestamp('today')` is the explicit `today` parameter.
`(today - NaT).dt.days < 30` compares NaN and is false.
-/

/-- The PEP list of `add_flags`. -/
def pepList : List String :=
  ["John Smith", "Emma Johnson", "Michael Brown", "Sarah Davis"]

/-- The high-risk country list of `add_flags`. -/
def highRiskCountriesAF : List String :=
  ["Iran", "North Korea", "Syria", "Cuba", "Russia", "Venezuela"]

/-- The high-risk category list of `add_flags`. -/
def highRiskCategoriesAF : List String :=
  ["Cryptocurrency", "Gambling", "Adult Content", "Arms Dealing"]

/-- One row of the merchant dataframe read by `add_flags`: the six columns the
rules consume (`Enriched_RiskScore` is `Option` because `df.get` defaults the
whole column to 0 when it is absent, and `RegistrationDate` is the parsed
date, `none` for `NaT`), plus the remaining columns of the upload, which
`add_flags` never reads (carried opaquely as string pairs). -/
structure MerchantRow where
  merchantName : String
  country : String
  businessCategory : String
  avgTransaction : ℚ
  registrationDate : Option Int
  enrichedRiskScore : Option ℚ
  extra : List (String × String) := []
deriving DecidableEq

/-- Python's banker's rounding of a rational to an integer
(`round` rounds half to even; exact here since no float noise is modelled).
Computed on the numerator and denominator: with `f = ⌊q⌋` and remainder
`r = num - f * den`, the fractional part `r / den` is compared with `1/2` by
comparing `2 * r` with `den`. -/
def roundHalfEven (q : ℚ) : ℤ :=
  let n := q.num
  let d := (q.den : ℤ)
  let f := Int.fdiv n d
  let r := n - f * d
  if 2 * r < d then f
  else if d < 2 * r then f + 1
  else if f % 2 = 0 then f else f + 1

/-- Python `round(x, 1)`: round `10 * q` half-to-even and divide by 10. -/
def round1 (q : ℚ) : ℚ := Rat.divInt (roundHalfEven (qmul 10 q)) 10

/-- The ordered rule names of `add_flags` (`flag_cols = list(rules.keys())`),
also the second component of the function's return value. -/
def flagColNames : List String :=
  ["SanctionedFlag", "HighRiskCountryFlag", "HighRiskCategoryFlag",
   "HighAmountFlag", "RecentRegistrationFlag", "CryptoRelatedFlag",
   "LuxuryHighValueFlag", "EnergyLargeVolumeFlag", "OddNameLengthFlag",
   "HighRiskScoreFlag"]

/-- The per-row outputs of `add_flags`: the carried input row, the ten rule
flags (stored as 0/1 ints in the source, modelled as booleans), the tripped
count, the fraud score and the suspicion classification. -/
structure FlaggedRow where
  base : MerchantRow
  sanctionedFlag : Bool
  highRiskCountryFlag : Bool
  highRiskCategoryFlag : Bool
  highAmountFlag : Bool
  recentRegistrationFlag : Bool
  cryptoRelatedFlag : Bool
  luxuryHighValueFlag : Bool
  energyLargeVolumeFlag : Bool
  oddNameLengthFlag : Bool
  highRiskScoreFlag : Bool
  flagsTripped : ℕ
  fraudScore : ℚ
  isSuspicious : Bool
deriving DecidableEq

/-- Rule `SanctionedFlag`: `df['MerchantName'].isin(results['pep_list'])`. -/
def sanctionedRule (r : MerchantRow) : Bool := pepList.contains r.merchantName

/-- Rule `HighRiskCountryFlag`: `df['Country'].isin(high_risk_countries)`. -/
def highRiskCountryRule (r : MerchantRow) : Bool := highRiskCountriesAF.contains r.country

/-- Rule `HighRiskCategoryFlag`: `df['BusinessCategory'].isin(high_risk_categories)`. -/
def highRiskCategoryRule (r : MerchantRow) : Bool :=
  highRiskCategoriesAF.contains r.businessCategory

/-- Rule `HighAmountFlag`: `df['AvgTransaction'] > 10000`. -/
def highAmountRule (r : MerchantRow) : Bool := decide (r.avgTransaction > 10000)

/-- Rule `RecentRegistrationFlag`:
`(pd.Timestamp('today') - df['RegistrationDate']).dt.days < 30`; for an
unparseable or missing date the column is `NaT`, the day difference is NaN and
the comparison is false. -/
def recentRegistrationRule (today : Int) (r : MerchantRow) : Bool :=
  match r.registrationDate with
  | none => false
  | some d => decide (today - d < 30)

/-- Rule `CryptoRelatedFlag`: `df['BusinessCategory']=='Cryptocurrency'`. -/
def cryptoRelatedRule (r : MerchantRow) : Bool := r.businessCategory == "Cryptocurrency"

/-- Rule `LuxuryHighValueFlag`: luxury-goods category and amount over 50000. -/
def luxuryHighValueRule (r : MerchantRow) : Bool :=
  (r.businessCategory == "Luxury Goods") && decide (r.avgTransaction > 50000)

/-- Rule `EnergyLargeVolumeFlag`: energy category and amount over 100000. -/
def energyLargeVolumeRule (r : MerchantRow) : Bool :=
  (r.businessCategory == "Energy") && decide (r.avgTransaction > 100000)

/-- Rule `OddNameLengthFlag`: `df['MerchantName'].str.len() % 2 == 1`. -/
def oddNameLengthRule (r : MerchantRow) : Bool := r.merchantName.length % 2 == 1

/-- Rule `HighRiskScoreFlag`: `df['Enriched_RiskScore'] > 80`, where the
column defaults to 0 when absent (`df.get('Enriched_RiskScore', 0)`). -/
def highRiskScoreRule (r : MerchantRow) : Bool :=
  decide (r.enrichedRiskScore.getD 0 > 80)

/-- The ten rule outcomes for one row, in the order of the `rules` dict. -/
def addFlagsRules (today : Int) (r : MerchantRow) : List Bool :=
  [sanctionedRule r, highRiskCountryRule r, highRiskCategoryRule r, highAmountRule r,
   recentRegistrationRule today r, cryptoRelatedRule r, luxuryHighValueRule r,
   energyLargeVolumeRule r, oddNameLengthRule r, highRiskScoreRule r]

/-- The rule evaluation and scoring of `add_flags` for one row:
`FlagsTripped` is the number of triggered rules, `FraudScore` is
`(FlagsTripped / len(flag_cols) * 100).round(1)` and `IsSuspicious` is
`FraudScore >= 50`. -/
def addFlagsRow (today : Int) (r : MerchantRow) : FlaggedRow :=
  let tripped := ((addFlagsRules today r).filter (fun b => b)).length
  let score := round1 (qmul (qdiv ((tripped : ℕ) : ℚ) ((flagColNames.length : ℕ) : ℚ)) 100)
  { base := r
    sanctionedFlag := sanctionedRule r
    highRiskCountryFlag := highRiskCountryRule r
    highRiskCategoryFlag := highRiskCategoryRule r
    highAmountFlag := highAmountRule r
    recentRegistrationFlag := recentRegistrationRule today r
    cryptoRelatedFlag := cryptoRelatedRule r
    luxuryHighValueFlag := luxuryHighValueRule r
    energyLargeVolumeFlag := energyLargeVolumeRule r
    oddNameLengthFlag := oddNameLengthRule r
    highRiskScoreFlag := highRiskScoreRule r
    flagsTripped := tripped
    fraudScore := score
    isSuspicious := decide (score ≥ 50) }

/-- Embedding of `add_flags(df)`: works on a copy of the dataframe
(`df = df.copy()` is the first line), returns the flagged rows together with
`flag_cols`, the list of rule names. -/
def addFlags (today : Int) (df : List MerchantRow) : List FlaggedRow × List String :=
  (df.map (addFlagsRow today), flagColNames)

/-- `add_flags` as a state transformer on the caller's dataframe: the function
copies its input before writing any column, so the caller's dataframe after
the call is the input unchanged. -/
def addFlagsOp (today : Int) (df : List MerchantRow) :
    List MerchantRow × (List FlaggedRow × List String) :=
  (df, addFlags today df)

/-- The assessment part of a flagged row (everything `add_flags` computes for
the row, without the carried input columns). -/
structure Assessment where
  sanctionedFlag : Bool
  highRiskCountryFlag : Bool
  highRiskCategoryFlag : Bool
  highAmountFlag : Bool
  recentRegistrationFlag : Bool
  cryptoRelatedFlag : Bool
  luxuryHighValueFlag : Bool
  energyLargeVolumeFlag : Bool
  oddNameLengthFlag : Bool
  highRiskScoreFlag : Bool
  flagsTripped : ℕ
  fraudScore : ℚ
  isSuspicious : Bool
deriving DecidableEq

/-- Project the computed assessment out of a flagged row. -/
def FlaggedRow.assessment (f : FlaggedRow) : Assessment :=
  { sanctionedFlag := f.sanctionedFlag
    highRiskCountryFlag := f.highRiskCountryFlag
    highRiskCategoryFlag := f.highRiskCategoryFlag
    highAmountFlag := f.highAmountFlag
    recentRegistrationFlag := f.recentRegistrationFlag
    cryptoRelatedFlag := f.cryptoRelatedFlag
    luxuryHighValueFlag := f.luxuryHighValueFlag
    energyLargeVolumeFlag := f.energyLargeVolumeFlag
    oddNameLengthFlag := f.oddNameLengthFlag
    highRiskScoreFlag := f.highRiskScoreFlag
    flagsTripped := f.flagsTripped
    fraudScore := f.fraudScore
    isSuspicious := f.isSuspicious }

/-!
Temporal fraud analysis, from `analyze_fraud` of `api/analysis.py`.

Timestamps are modelled post-parse as minutes since the epoch:
`pd.to_datetime(..., errors='coerce')` gives `none` for an unparseable value,
and the subsequent `dropna` removes such rows.  `pd.Grouper(freq='1h')` groups
rows into fixed wall-clock hour buckets `[60*b, 60*b + 60)`, i.e. by the floor
division of the timestamp by 60.
-/

/-- One row of the transaction dataframe: merchant id, parsed timestamp in
minutes (`none` for an unparseable value), the optional
`merchant_location` column, and the `fraud_flag` column the function writes on
its copy. -/
structure Txn where
  merchant : String
  timestamp : Option Int
  location : Option String := none
  fraudFlag : Option String := none
deriving DecidableEq

/-- The hour bucket of a (parsed) timestamp: floor division by 60 minutes,
i.e. the fixed wall-clock window `[60*b, 60*b + 60)` it falls in. -/
def txnBucket (t : Txn) : Int := Int.fdiv (t.timestamp.getD 0) 60

/-- Size of the `(merchant, hour-bucket)` group: the number of the merchant's
transactions with a parsed timestamp falling in bucket `b`. -/
def bucketCount (txs : List Txn) (m : String) (b : Int) : Nat :=
  (txs.filter (fun t => t.merchant == m && t.timestamp.isSome && txnBucket t == b)).length

/-- The hour buckets in which merchant `m` has at least one parsed
transaction: the group keys of `groupby([merchant, Grouper(freq='1h')])`
restricted to `m` (kept with multiplicity; `groupby` dedupes the keys, which
does not affect whether some group satisfies a property). -/
def merchantBuckets (txs : List Txn) (m : String) : List Int :=
  (txs.filter (fun t => t.merchant == m && t.timestamp.isSome)).map txnBucket

/-- Membership of `m` in `burst_merchants`, with the count threshold as a
parameter: some `(m, bucket)` group has size strictly greater than `c`
(the source fixes `c = 10`: `tx_counts[tx_counts > 10]`). -/
def burstFlaggedT (c : Nat) (txs : List Txn) (m : String) : Bool :=
  (merchantBuckets txs m).any (fun b => decide (bucketCount txs m b > c))

/-- Membership of `m` in `burst_merchants` as the source computes it
(hardcoded threshold 10). -/
def burstFlagged (txs : List Txn) (m : String) : Bool := burstFlaggedT 10 txs m

/-- Membership of `m` in `flagged_locations`: the number of distinct non-null
`merchant_location` values over all of the merchant's rows exceeds 2
(`nunique` ignores nulls; threshold hardcoded: `location_flags > 2`). -/
def locFlagged (txs : List Txn) (m : String) : Bool :=
  (((txs.filter (fun t => t.merchant == m)).filterMap (fun t => t.location)).eraseDups).length > 2

/-- Embedding of `analyze_fraud(df)`: works on a copy, drops rows whose
timestamp failed to parse, and assigns `fraud_flag = 'HIGH'` to a row iff its
merchant is burst-flagged or location-flagged, else `'LOW'`. -/
def analyzeFraud (df : List Txn) : List Txn :=
  let kept := df.filter (fun t => t.timestamp.isSome)
  kept.map (fun t =>
    let fl := if burstFlagged kept t.merchant || locFlagged kept t.merchant
              then "HIGH" else "LOW"
    { t with fraudFlag := some fl })

/-- `analyze_fraud` as a state transformer on the caller's dataframe: the
function copies its input (`df = df.copy()`), so the caller's dataframe after
the call is the input unchanged. -/
def analyzeFraudOp (df : List Txn) : List Txn × List Txn :=
  (df, analyzeFraud df)

/-!
Concrete inputs used by the witnesses and counterexamples.
-/

/-- A merchant whose name equals the watchlist entry `"Walmart"` only up to
case. -/
def wrowCE : ScreenRow :=
  { merchantName := "WALMART", merchantCategory := "", merchantCountry := "CA",
    merchantWebsite := "" }

/-- A merchant whose name is verbatim on the watchlist. -/
def walRow : ScreenRow :=
  { merchantName := "Walmart", merchantCategory := "", merchantCountry := "CA",
    merchantWebsite := "" }

/-- A merchant matching no screening rule. -/
def cleanRow : ScreenRow :=
  { merchantName := "Plain Goods", merchantCategory := "Groceries",
    merchantCountry := "CA", merchantWebsite := "plaingoods.example" }

/-- A single-character merchant name, matching no screening rule. -/
def xrow : ScreenRow :=
  { merchantName := "X", merchantCategory := "", merchantCountry := "CA",
    merchantWebsite := "" }

/-!
Theorems for the frozen claims.
-/

/-- C2, counterexample.  The merchant name `"WALMART"` is case-insensitively
equal to the watchlist entry `"Walmart"`, yet `screen_merchants` records no
reason at all for it (flag `"Clear"`): the exact branch tests verbatim
membership `name in SANCTION_LIST`, and the fuzzy score of `"WALMART"`
against every entry stays far below the threshold 80, so the claimed
`matched = true` with reason `"Exact match"` and score 100 is false. -/
theorem C2_counterexample :
    (∃ e ∈ SANCTION_LIST, strToLower e = strToLower wrowCE.merchantName) ∧
    screenRowReasons wrowCE = [] ∧ screenRowFlag wrowCE = "Clear" := by
  refine ⟨⟨"Walmart", by decide, by decide⟩, by decide, by decide⟩

/-- C2, amended.  Exact watchlist matching is case-sensitive: when the
merchant name is verbatim in `SANCTION_LIST`, the first recorded reason is
the literal `"Exact match: sanction list"`, independent of the fuzzy
threshold (the exact branch never consults it); no numeric score is
produced by `screen_merchants`. -/
theorem C2_exact_case_sensitive (threshold : ℚ) (r : ScreenRow)
    (h : r.merchantName ∈ SANCTION_LIST) :
    (screenRowReasonsT threshold r).head? = some "Exact match: sanction list" := by
  have he : exactSanction r = true := by
    unfold exactSanction
    exact List.elem_eq_true_of_mem h
  simp [screenRowReasonsT, he]

/-- C2, witness for the amended theorem at the verbatim entry `"Walmart"`. -/
theorem C2_exact_case_sensitive_witness :
    (screenRowReasons walRow).head? = some "Exact match: sanction list" :=
  C2_exact_case_sensitive 80 walRow (by decide)

/-- C9.  For every row, the reason list is nonempty exactly when one of the
five screening conditions holds, and a row with an empty reason list is
reported with the literal sentinel `"Clear"`. -/
theorem C9_reason_list (r : ScreenRow) :
    (screenRowReasons r ≠ [] ↔ screenRuleMatched r = true) ∧
    (screenRowReasons r = [] → screenRowFlag r = "Clear") := by
  constructor
  · unfold screenRowReasons screenRowReasonsT screenRuleMatched fuzzySanction
    cases h1 : exactSanction r <;> cases h2 : fuzzySanctionT 80 r <;>
      cases h3 : catRisk r <;> cases h4 : countryRisk r <;>
      cases h5 : advKeywords r <;> simp
  · intro h
    simp [screenRowFlag, h]

/-- C9, witness: a clean merchant has an empty reason list and renders as
`"Clear"`. -/
theorem C9_reason_list_witness : screenRowFlag cleanRow = "Clear" :=
  (C9_reason_list cleanRow).2 (by decide)

/-- C10.  Calling the fuzzy matcher with an empty watchlist returns `false`
for every name and every threshold, without raising (`process.extract`
returns an empty match list and the function takes the fallback branch;
the embedding is a total function). -/
theorem C10_empty_watchlist (name : String) (threshold : ℚ) :
    fuzzyMatch name [] threshold = false := rfl

/-- A merchant row with a missing registration date and a carried extra
column (as produced by the enrichment stage). -/
def rowA : MerchantRow :=
  { merchantName := "Ghost Shop", country := "Canada", businessCategory := "Retail",
    avgTransaction := 50, registrationDate := none, enrichedRiskScore := some 95,
    extra := [("Enriched_Location", "Canada")] }

/-- The same merchant row as `rowA` without the extra column. -/
def rowB : MerchantRow :=
  { merchantName := "Ghost Shop", country := "Canada", businessCategory := "Retail",
    avgTransaction := 50, registrationDate := none, enrichedRiskScore := some 95 }

theorem roundHalfEven_intCast (k : ℤ) : roundHalfEven ((k : ℤ) : ℚ) = k := by
  unfold roundHalfEven
  simp [Rat.num_intCast, Rat.den_intCast, Int.fdiv_one]

theorem round1_score_eq (t : ℕ) :
    round1 (qmul (qdiv ((t : ℕ) : ℚ) ((flagColNames.length : ℕ) : ℚ)) 100)
      = 10 * (t : ℚ) := by
  have hlen : ((flagColNames.length : ℕ) : ℚ) = 10 := by norm_num [flagColNames]
  rw [qmul_eq, qdiv_eq, hlen]
  unfold round1
  rw [qmul_eq]
  have harg : (10 : ℚ) * ((t : ℚ) / 10 * 100) = ((100 * (t : ℤ) : ℤ) : ℚ) := by
    push_cast
    ring
  rw [harg, roundHalfEven_intCast, Rat.divInt_eq_div]
  push_cast
  ring

/-- C1.  The assessment `add_flags` computes for a row is a function of
exactly the declared input fields (name, country, category, transaction
amount, registration date and the `Enriched_RiskScore` column): rows agreeing
on these fields receive identical flags, score and classification whatever
other columns (e.g. enrichment artifacts) they carry, so a second run on an
identical batch reproduces the assessments bit for bit; and the risk-score
rule reads the `Enriched_RiskScore` input field of the row (default 0),
generating nothing internally. -/
theorem C1_no_hidden_inputs (today : Int) (r1 r2 : MerchantRow)
    (h1 : r1.merchantName = r2.merchantName) (h2 : r1.country = r2.country)
    (h3 : r1.businessCategory = r2.businessCategory)
    (h4 : r1.avgTransaction = r2.avgTransaction)
    (h5 : r1.registrationDate = r2.registrationDate)
    (h6 : r1.enrichedRiskScore = r2.enrichedRiskScore) :
    (addFlagsRow today r1).assessment = (addFlagsRow today r2).assessment ∧
    (addFlagsRow today r1).highRiskScoreFlag
      = decide (r1.enrichedRiskScore.getD 0 > 80) := by
  constructor
  · simp only [FlaggedRow.assessment, addFlagsRow, addFlagsRules, sanctionedRule,
      highRiskCountryRule, highRiskCategoryRule, highAmountRule,
      recentRegistrationRule, cryptoRelatedRule, luxuryHighValueRule,
      energyLargeVolumeRule, oddNameLengthRule, highRiskScoreRule,
      h1, h2, h3, h4, h5, h6]
  · rfl

/-- C1, witness: two copies of a row differing only in a carried enrichment
column receive the same assessment. -/
theorem C1_no_hidden_inputs_witness :
    (addFlagsRow 20000 rowA).assessment = (addFlagsRow 20000 rowB).assessment ∧
    (addFlagsRow 20000 rowA).highRiskScoreFlag
      = decide (rowA.enrichedRiskScore.getD 0 > 80) :=
  C1_no_hidden_inputs 20000 rowA rowB rfl rfl rfl rfl rfl rfl

/-- C3.  For every row, the fraud score equals
`round(FlagsTripped / len(flag_cols) * 100, 1)` and lies in `[0, 100]`
(the count of triggered rules is at most the number of rules, 10). -/
theorem C3_fraud_score (today : Int) (r : MerchantRow) :
    (addFlagsRow today r).fraudScore
        = round1 (((addFlagsRow today r).flagsTripped : ℚ)
            / ((flagColNames.length : ℕ) : ℚ) * 100) ∧
    0 ≤ (addFlagsRow today r).fraudScore ∧
    (addFlagsRow today r).fraudScore ≤ 100 := by
  have htr : (addFlagsRow today r).flagsTripped ≤ 10 := by
    have h2 := List.length_filter_le (fun b => b) (addFlagsRules today r)
    have h3 : (addFlagsRules today r).length = 10 := rfl
    have h1 : (addFlagsRow today r).flagsTripped
        = ((addFlagsRules today r).filter (fun b => b)).length := rfl
    omega
  have hs : (addFlagsRow today r).fraudScore
      = round1 (qmul (qdiv (((addFlagsRow today r).flagsTripped : ℕ) : ℚ)
          ((flagColNames.length : ℕ) : ℚ)) 100) := rfl
  refine ⟨by rw [hs, qmul_eq, qdiv_eq], ?_, ?_⟩
  · rw [hs, round1_score_eq]
    positivity
  · rw [hs, round1_score_eq]
    have hq : ((addFlagsRow today r).flagsTripped : ℚ) ≤ 10 := by exact_mod_cast htr
    linarith

/-- C7, amended.  A row whose registration date is missing or unparseable
(`NaT` after `pd.to_datetime(..., errors='coerce')`) gets
`RecentRegistrationFlag = false` and evaluation does not raise; however no
DataQualityWarning is recorded anywhere — the coercion is silent and
`add_flags` returns only the flagged rows and the rule-name list. -/
theorem C7_missing_date_rule_false (today : Int) (r : MerchantRow)
    (h : r.registrationDate = none) :
    (addFlagsRow today r).recentRegistrationFlag = false := by
  show recentRegistrationRule today r = false
  unfold recentRegistrationRule
  rw [h]

/-- C7, witness at a concrete row with a missing registration date. -/
theorem C7_missing_date_rule_false_witness :
    (addFlagsRow 20000 rowB).recentRegistrationFlag = false :=
  C7_missing_date_rule_false 20000 rowB rfl

/-- C7, counterexample to the warning part.  At a concrete row with a missing
registration date the rule is `false`, but the only string collection
returned alongside the results is `flag_cols` — the ten rule names — and no
`DataQualityWarning` appears in the output: the claim that a warning is
recorded alongside the results is false. -/
theorem C7_counterexample :
    (addFlags 20000 [rowB]).2 = flagColNames ∧
    "DataQualityWarning" ∉ (addFlags 20000 [rowB]).2 ∧
    (addFlagsRow 20000 rowB).recentRegistrationFlag = false := by
  refine ⟨rfl, by decide, rfl⟩

/-- A merchant summary row with 10 transactions and 1 chargeback
(chargeback rate exactly 1/10). -/
def cbr : CbRecord :=
  { numTransactions := 10, numChargebacks := 1, chargebacksThisMonth := 0,
    chargebacksLastMonth := 0, chargebackAmount := 0, totalTransactionVolume := 100 }

/-- A merchant summary row with zero transactions and 5 chargebacks. -/
def cbZero : CbRecord :=
  { numTransactions := 0, numChargebacks := 5, chargebacksThisMonth := 0,
    chargebacksLastMonth := 0, chargebackAmount := 0, totalTransactionVolume := 100 }

theorem foldl_qadd_eq_sum (l : List ℚ) (a : ℚ) : l.foldl qadd a = a + l.sum := by
  induction l generalizing a with
  | nil => simp
  | cons x xs ih =>
      rw [List.foldl_cons, ih, qadd_eq, List.sum_cons]
      ring

theorem foldl_qadd_const (l : List ℚ) (q : ℚ) (h : ∀ x ∈ l, x = q) :
    l.foldl qadd 0 = (l.length : ℚ) * q := by
  rw [foldl_qadd_eq_sum, zero_add, List.eq_replicate_of_mem h, List.sum_replicate,
    List.length_replicate, nsmul_eq_mul]

theorem filter_not_nan_of_fin (xs : List PFloat) (q : ℚ)
    (h : ∀ x ∈ xs, x = PFloat.fin q) :
    xs.filter (fun x => !x.isNan) = xs := by
  apply List.filter_eq_self.mpr
  intro x hx
  rw [h x hx]
  rfl

theorem pmean_const (xs : List PFloat) (q : ℚ) (hne : xs ≠ [])
    (h : ∀ x ∈ xs, x = PFloat.fin q) : pmean xs = PFloat.fin q := by
  have h0 : xs.length ≠ 0 := fun hh => hne (List.length_eq_zero.mp hh)
  have hlen : ((xs.length : ℕ) : ℚ) ≠ 0 := Nat.cast_ne_zero.mpr h0
  have hq : ∀ y ∈ xs.map PFloat.toQ, y = q := by
    intro y hy
    rcases List.mem_map.mp hy with ⟨x, hx, rfl⟩
    rw [h x hx]
    rfl
  have hfe : xs.filter (fun x => !x.isNan) = xs := filter_not_nan_of_fin xs q h
  have hie : xs.isEmpty = false := by
    cases xs with
    | nil => exact absurd rfl hne
    | cons a l => rfl
  have hall : xs.all (fun x => x.isFinite) = true :=
    List.all_eq_true.mpr (fun x hx => by rw [h x hx]; rfl)
  simp only [pmean, hfe, hie, hall, Bool.false_eq_true, if_false, if_true, ite_true,
    ite_false, List.length_map]
  rw [foldl_qadd_const _ q hq, List.length_map, qdiv_eq, mul_div_cancel_left₀ _ hlen]

theorem pvar_const (xs : List PFloat) (q : ℚ) (hne : xs ≠ [])
    (h : ∀ x ∈ xs, x = PFloat.fin q) : pvar xs = PFloat.fin 0 := by
  have h0 : xs.length ≠ 0 := fun hh => hne (List.length_eq_zero.mp hh)
  have hlen : ((xs.length : ℕ) : ℚ) ≠ 0 := Nat.cast_ne_zero.mpr h0
  have hq : ∀ y ∈ xs.map PFloat.toQ, y = q := by
    intro y hy
    rcases List.mem_map.mp hy with ⟨x, hx, rfl⟩
    rw [h x hx]
    rfl
  have hfe : xs.filter (fun x => !x.isNan) = xs := filter_not_nan_of_fin xs q h
  have hie : xs.isEmpty = false := by
    cases xs with
    | nil => exact absurd rfl hne
    | cons a l => rfl
  have hall : xs.all (fun x => x.isFinite) = true :=
    List.all_eq_true.mpr (fun x hx => by rw [h x hx]; rfl)
  have hm : qdiv ((xs.map PFloat.toQ).foldl qadd 0) (((xs.map PFloat.toQ).length : ℕ) : ℚ)
      = q := by
    rw [foldl_qadd_const _ q hq, List.length_map, qdiv_eq, mul_div_cancel_left₀ _ hlen]
  simp only [pvar, hfe, hie, hall, Bool.false_eq_true, if_false, if_true, ite_true,
    ite_false, hm]
  have hz : ∀ y ∈ (xs.map PFloat.toQ).map (fun a => qmul (qsub a q) (qsub a q)), y = 0 := by
    intro y hy
    rcases List.mem_map.mp hy with ⟨a, ha, rfl⟩
    rw [hq a ha, qsub_eq, qmul_eq]
    ring
  rw [foldl_qadd_const _ 0 hz, mul_zero, List.length_map, qdiv_eq, zero_div]

/-- C4, counterexample.  At a concrete record with `NumTransactions = 0` and
`NumChargebacks = 5` the computed chargeback rate is `+inf`, not the claimed
0: the division `df['NumChargebacks'] / df['NumTransactions']` has no
zero-transactions guard. -/
theorem C4_counterexample :
    cbZero.numTransactions = 0 ∧ chargebackRateFn cbZero = PFloat.posInf ∧
    chargebackRateFn cbZero ≠ PFloat.fin 0 := by decide

/-- C4, amended.  The chargeback rate is the plain float quotient
`num_chargebacks / num_transactions`; when `num_transactions` is nonzero it
is the exact finite quotient, and when `num_transactions = 0` it is a
non-finite float (`+inf`, `-inf` or NaN according to the sign of the
numerator) rather than 0.  No exception is raised in either case (the
embedding is a total function). -/
theorem C4_rate_division (r : CbRecord) :
    (r.numTransactions ≠ 0 →
      chargebackRateFn r = PFloat.fin (r.numChargebacks / r.numTransactions)) ∧
    (r.numTransactions = 0 → (chargebackRateFn r).isFinite = false) := by
  constructor
  · intro h
    simp [chargebackRateFn, pdiv, h, qdiv_eq]
  · intro h
    simp only [chargebackRateFn, pdiv, h]
    rw [if_neg (by simp)]
    split_ifs <;> rfl

/-- C4, witness: the finite branch at 10 transactions and the zero-division
branch at 0 transactions. -/
theorem C4_rate_division_witness :
    chargebackRateFn cbr = PFloat.fin (cbr.numChargebacks / cbr.numTransactions) ∧
    (chargebackRateFn cbZero).isFinite = false :=
  ⟨(C4_rate_division cbr).1 (by decide), (C4_rate_division cbZero).2 rfl⟩

/-- C5, counterexample.  A batch of two records with equal chargeback rates
(population standard deviation 0): the z-score column the code stores is NaN
(`0/0`), which does not represent 0 — the claim that z is defined as 0 in the
degenerate case is false — while the outlier flag is indeed false for every
entity. -/
theorem C5_counterexample :
    (detectChargebackFraud [cbr, cbr]).1.map (fun r => r.chargebackRateZ)
        = [some ZVal.nan, some ZVal.nan] ∧
    ZVal.reprZero ZVal.nan = false ∧
    (detectChargebackFraud [cbr, cbr]).1.map (fun r => r.chargebackOutlierZFlag)
        = [some false, some false] := by decide

/-- C5, amended.  In every nonempty batch whose chargeback rates are all
equal (population standard deviation 0, e.g. a single entity or all equal
rates), every entity's z-score is NaN — the float `0/0` — rather than 0;
since comparisons with NaN are false, the z-score outlier rule
`abs(z) > 2` fires for no entity of such a batch. -/
theorem C5_degenerate_batch (df : List CbRecord) (q : ℚ) (hne : df ≠ [])
    (h : ∀ r ∈ df, chargebackRateFn r = PFloat.fin q) :
    ∀ row ∈ (detectChargebackFraud df).1,
      row.chargebackRateZ = some ZVal.nan ∧
      row.chargebackOutlierZFlag = some false := by
  have hrates : ∀ x ∈ df.map chargebackRateFn, x = PFloat.fin q := by
    intro x hx
    rcases List.mem_map.mp hx with ⟨r, hr, rfl⟩
    exact h r hr
  have hmap_ne : df.map chargebackRateFn ≠ [] := by
    intro hcon
    exact hne (List.map_eq_nil_iff.mp hcon)
  have hm : pmean (df.map chargebackRateFn) = PFloat.fin q :=
    pmean_const _ q hmap_ne hrates
  have hv : pvar (df.map chargebackRateFn) = PFloat.fin 0 :=
    pvar_const _ q hmap_ne hrates
  intro row hrow
  simp only [detectChargebackFraud, List.mem_map] at hrow
  rcases hrow with ⟨r, hr, rfl⟩
  have hz : zScore (psub (chargebackRateFn r) (pmean (df.map chargebackRateFn)))
      (pvar (df.map chargebackRateFn)) = ZVal.nan := by
    rw [h r hr, hm, hv]
    have hq : qsub q q = 0 := by rw [qsub_eq]; ring
    simp [psub, zScore, hq]
  constructor
  · show some (zScore (psub (chargebackRateFn r) (pmean (df.map chargebackRateFn)))
        (pvar (df.map chargebackRateFn))) = some ZVal.nan
    rw [hz]
  · show some (zAbsGtTwo (zScore (psub (chargebackRateFn r)
        (pmean (df.map chargebackRateFn))) (pvar (df.map chargebackRateFn))))
        = some false
    rw [hz]
    rfl

/-- The first row of the mutated dataframe of the two-equal-records batch. -/
def cbrPost : CbRecord := ((detectChargebackFraud [cbr, cbr]).1).getD 0 cbr

/-- C5, witness for the amended theorem at the two-equal-records batch. -/
theorem C5_degenerate_batch_witness :
    cbrPost.chargebackRateZ = some ZVal.nan ∧
    cbrPost.chargebackOutlierZFlag = some false :=
  C5_degenerate_batch [cbr, cbr] (Rat.divInt 1 10) (by decide) (by decide)
    cbrPost (by decide)

/-- Eleven transactions of merchant `"M"`, timestamps (in minutes) 0..10, all
inside the single wall-clock hour window `[0, 60)`. -/
def ex11 : List Txn :=
  (List.range 11).map (fun j => { merchant := "M", timestamp := some (j : Int) })

/-- Ten transactions of merchant `"M"`, timestamps 0..9, all inside the
window `[0, 60)`. -/
def ex10 : List Txn :=
  (List.range 10).map (fun j => { merchant := "M", timestamp := some (j : Int) })

/-- C6.  With the count threshold as a parameter (the source hardcodes 10), a
merchant is burst-flagged iff some fixed wall-clock hour window holds strictly
more than `c` of its (parsed) transactions; at the source's threshold 10, a
merchant with 11 transactions in one window is flagged, one with exactly 10
is not, and `analyze_fraud` marks the rows accordingly. -/
theorem C6_burst_window :
    (∀ (c : ℕ) (txs : List Txn) (m : String),
      burstFlaggedT c txs m = true ↔ ∃ b : Int, bucketCount txs m b > c) ∧
    burstFlagged ex11 "M" = true ∧ burstFlagged ex10 "M" = false ∧
    (analyzeFraud ex11).map (fun t => t.fraudFlag)
        = List.replicate 11 (some "HIGH") ∧
    (analyzeFraud ex10).map (fun t => t.fraudFlag)
        = List.replicate 10 (some "LOW") := by
  refine ⟨?_, by decide, by decide, by decide, by decide⟩
  intro c txs m
  unfold burstFlaggedT merchantBuckets
  constructor
  · intro h
    rcases List.any_eq_true.mp h with ⟨b, _, hpb⟩
    exact ⟨b, of_decide_eq_true hpb⟩
  · rintro ⟨b, hb⟩
    have h0 : 0 < bucketCount txs m b := Nat.lt_of_le_of_lt (Nat.zero_le c) hb
    have hne : txs.filter
        (fun t => t.merchant == m && t.timestamp.isSome && txnBucket t == b) ≠ [] := by
      intro hcon
      rw [bucketCount, hcon] at h0
      exact Nat.lt_irrefl 0 h0
    rcases List.exists_mem_of_ne_nil _ hne with ⟨t, ht⟩
    rcases List.mem_filter.mp ht with ⟨htxs, hp⟩
    rw [Bool.and_eq_true] at hp
    rcases hp with ⟨hp1, hp2⟩
    have hbt : txnBucket t = b := by
      exact beq_iff_eq.mp hp2
    apply List.any_eq_true.mpr
    refine ⟨txnBucket t, ?_, ?_⟩
    · exact List.mem_map_of_mem txnBucket (List.mem_filter.mpr ⟨htxs, hp1⟩)
    · rw [hbt]
      exact decide_eq_true hb

/-- C8, counterexample.  `screen_merchants` writes the `screening_flag`
column into the caller's dataframe in place: after the call the caller's
batch differs from the input (the flag column is now set), so the engine
operations are not all pure functions that leave the caller's batch
unchanged; `detect_chargeback_fraud` likewise adds its derived columns to the
caller's dataframe. -/
theorem C8_counterexample :
    (screenMerchantsOp [xrow]).1 ≠ [xrow] ∧
    (screenMerchantsOp [xrow]).1 = [{ xrow with screeningFlag := some "Clear" }] ∧
    (detectChargebackFraudOp [cbr]).1 ≠ [cbr] := by
  refine ⟨by decide, by decide, by decide⟩

/-- C8, amended.  `add_flags` and `analyze_fraud` copy their input
(`df = df.copy()`) and leave the caller's batch unchanged, returning fresh
values; but `screen_merchants` and `detect_chargeback_fraud` write their
computed columns into the caller's dataframe in place (returning the mutated
object), as the concrete conjuncts exhibit. -/
theorem C8_mutation (today : Int) (dfm : List MerchantRow) (dft : List Txn) :
    (addFlagsOp today dfm).1 = dfm ∧ (analyzeFraudOp dft).1 = dft ∧
    (screenMerchantsOp [xrow]).1 ≠ [xrow] ∧
    (detectChargebackFraudOp [cbr]).1 ≠ [cbr] :=
  ⟨rfl, rfl, by decide, by decide⟩

end MVP
